import Mathlib

/-!
Verification of the FlexSub repository: a shallow embedding of the
subscription-billing and state-channel code (the `YellowIntegration`
class, the `FlexSub` SDK class, and the `FlexSubManager` Solidity
contract) together with theorems settling the specification claims.

All definitions are translated from the TypeScript / Solidity sources;
the only definitions translated from the specification text are the ones
whose doc comment starts with "Modelled from the spec".
-/

set_option maxRecDepth 4000

namespace FlexSubVerif

/-! ## Generic association-list maps

JavaScript `Map` objects (insertion ordered, `get` / `set`) and Solidity
`mapping`s are both embedded as association lists with first-match
lookup; `alSet` replaces the binding of an existing key in place. -/

def alGet {κ α : Type} [BEq κ] (l : List (κ × α)) (k : κ) : Option α :=
  match l with
  | [] => none
  | (k', v) :: rest => if k' == k then some v else alGet rest k

def alSet {κ α : Type} [BEq κ] (l : List (κ × α)) (k : κ) (v : α) : List (κ × α) :=
  match l with
  | [] => [(k, v)]
  | (k', v') :: rest => if k' == k then (k, v) :: rest else (k', v') :: alSet rest k v

theorem alGet_alSet_self {κ α : Type} [BEq κ] [LawfulBEq κ]
    (l : List (κ × α)) (k : κ) (v : α) : alGet (alSet l k v) k = some v := by
  induction l with
  | nil => simp [alGet, alSet]
  | cons hd tl ih =>
    by_cases h : hd.1 == k
    · simp [alGet, alSet, h]
    · simp only [alSet]
      rw [show (hd.1 == k) = false by simpa using h]
      simpa [alGet, show (hd.1 == k) = false by simpa using h] using ih

theorem alGet_alSet_ne {κ α : Type} [BEq κ] [LawfulBEq κ]
    (l : List (κ × α)) (k k' : κ) (v : α) (h : k' ≠ k) :
    alGet (alSet l k v) k' = alGet l k' := by
  induction l with
  | nil =>
    simp [alGet, alSet, show (k == k') = false by simpa using fun e => h e.symm]
  | cons hd tl ih =>
    by_cases hk : hd.1 == k
    · have hd1 : hd.1 = k := by simpa using hk
      simp [alGet, alSet, hk, hd1, show (k == k') = false by simpa using fun e => h e.symm]
    · simp only [alSet]
      rw [show (hd.1 == k) = false by simpa using hk]
      by_cases hk' : hd.1 == k'
      · simp [alGet, hk']
      · simp [alGet, show (hd.1 == k') = false by simpa using hk', ih]

/-! ## YellowIntegration (src/sdk/src/yellow.ts)

State-channel client. Balances are JavaScript `BigInt`s stored as
strings; they are embedded as `Int`. The WebSocket, message signer and
ClearNode are external collaborators: connectivity is a flag, and the
ClearNode response awaited by `waitForResponse` is an explicit input
(`Except String String`: an error models a timeout or error response). -/

structure AppDefinition where
  protocol : String
  participants : List String
  weights : List Nat
  quorum : Nat
  challenge : Nat
  nonce : Nat
  deriving Repr, DecidableEq

structure Allocation where
  participant : String
  asset : String
  amount : Int
  deriving Repr, DecidableEq

structure ChannelState where
  id : String
  appDefinition : AppDefinition
  allocations : List Allocation
  nonce : Nat
  isOpen : Bool
  deriving Repr, DecidableEq

/-- The mutable fields of a `YellowIntegration` instance: `connected`
models `ws ≠ null ∧ messageSigner ≠ null`. -/
structure YellowState where
  connected : Bool
  userAddress : Option String
  channels : List (String × ChannelState)
  deriving Repr, DecidableEq

/-- Index of the first element satisfying `p` (JavaScript `Array.prototype.find`). -/
def firstIdx {α : Type} (p : α → Bool) : List α → Option Nat
  | [] => none
  | a :: as => if p a then some 0 else (firstIdx p as).map (· + 1)

/-- Replace the element at index `i` by `f` of it (out-of-range: no change). -/
def modifyAt {α : Type} : List α → Nat → (α → α) → List α
  | [], _, _ => []
  | a :: as, 0, f => f a :: as
  | a :: as, n + 1, f => a :: modifyAt as n f

/-- Amount of the first allocation whose participant is `p` (0 when absent,
matching `BigInt(senderAlloc?.amount ?? 0)`). -/
def amountAt (l : List Allocation) (p : String) : Int :=
  match firstIdx (fun a => a.participant == p) l with
  | some i =>
    match l.get? i with
    | some a => a.amount
    | none => 0
  | none => 0

/-- Sum of all allocation amounts of a channel. -/
def allocSum : List Allocation → Int
  | [] => 0
  | a :: as => a.amount + allocSum as

/-- The allocation update performed by `sendPayment`: both `find` calls run
before the mutations, so when sender and recipient resolve to the same
allocation object the second mutation reads the value written by the first
(JavaScript aliasing); this is captured by applying the two `modifyAt`
updates in sequence on the found indices. -/
def updateAllocs (l : List Allocation) (user recipient : String) (amt : Int) :
    List Allocation :=
  match firstIdx (fun a => a.participant == user) l,
        firstIdx (fun a => a.participant == recipient) l with
  | some i, some j =>
    modifyAt (modifyAt l i (fun a => { a with amount := a.amount - amt })) j
      (fun a => { a with amount := a.amount + amt })
  | _, _ => l

/-- Embeds `YellowIntegration.openChannel`. `now` is `Date.now()`; `response` is the
ClearNode reply to the `create_session` message (the channel id). The stored
channel always allocates the whole `initialDeposit` to the caller, `0` to the
partner, with local nonce `0`. No per-tuple uniqueness check is performed. -/
def openChannel (st : YellowState) (partnerAddress : String) (initialDeposit : Int)
    (assetParam : Option String) (now : Nat) (response : Except String String) :
    Except String (YellowState × String) :=
  match st.connected, st.userAddress with
  | true, some user =>
    let asset := assetParam.getD "usdc"
    let appDef : AppDefinition :=
      { protocol := "flexsub-subscription-v1"
        participants := [user, partnerAddress]
        weights := [50, 50]
        quorum := 100
        challenge := 0
        nonce := now }
    let allocations : List Allocation :=
      [ { participant := user, asset := asset, amount := initialDeposit }
      , { participant := partnerAddress, asset := asset, amount := 0 } ]
    match response with
    | Except.error e => Except.error e
    | Except.ok channelId =>
      let ch : ChannelState :=
        { id := channelId, appDefinition := appDef, allocations := allocations
          nonce := 0, isOpen := true }
      Except.ok ({ st with channels := alSet st.channels channelId ch }, channelId)
  | _, _ => Except.error "Not connected. Call connect() first."

/-- Embeds `YellowIntegration.sendPayment`. No nonce argument exists: the payment
message carries `channel.nonce + 1` and the local nonce is always
incremented. No balance check is performed before debiting the sender.
The returned `Int` is `newBalance`. -/
def sendPayment (st : YellowState) (channelId : String) (amount : Int)
    (recipient : String) : Except String (YellowState × Int) :=
  match st.connected, st.userAddress with
  | true, some user =>
    match alGet st.channels channelId with
    | none => Except.error "Channel not found or closed"
    | some channel =>
      if channel.isOpen = false then Except.error "Channel not found or closed"
      else
        let newAllocs := updateAllocs channel.allocations user recipient amount
        let channel' := { channel with nonce := channel.nonce + 1, allocations := newAllocs }
        Except.ok ({ st with channels := alSet st.channels channelId channel' },
          amountAt newAllocs user)
  | _, _ => Except.error "Not connected"

/-- Embeds `YellowIntegration.chargeSubscription`. Returns `false` (with unchanged
state) when the channel id is absent, when no counterparty participant is
found, or when `sendPayment` throws; all `sendPayment` throws happen before
any mutation, so the `false` cases never change state. -/
def chargeSubscription (st : YellowState) (channelId : String)
    (_subscriptionId : Nat) (amount : Int) : YellowState × Bool :=
  match alGet st.channels channelId with
  | none => (st, false)
  | some channel =>
    match channel.appDefinition.participants.find? (fun p => some p != st.userAddress) with
    | none => (st, false)
    | some subscriber =>
      match sendPayment st channelId amount subscriber with
      | Except.ok (st', _) => (st', true)
      | Except.error _ => (st, false)

/-! ## FlexSub SDK (src/sdk/src/FlexSub.ts)

The viem clients are external collaborators: `walletConnected` models
`walletClient ≠ null`, on-chain reads (`getPlan`) are inputs, and a
`writeContract` call is represented by the transaction hash it returns
at submission time. -/

structure TransactionResult where
  hash : String
  success : Bool
  deriving Repr, DecidableEq

inductive Period where
  | daily
  | weekly
  | monthly
  | yearly
  deriving Repr, DecidableEq

/-- The period-name to seconds table in `FlexSub.createPlan`. -/
def periodSeconds : Period → Nat
  | Period.daily => 86400
  | Period.weekly => 604800
  | Period.monthly => 2592000
  | Period.yearly => 31536000

/-- viem `parseUnits(value, 6)` on a plain decimal string: fractional digits
beyond the sixth are dropped (viem rounds them; no claim depends on that
digit). -/
def parseUnits6 (s : String) : Int :=
  let neg := s.startsWith "-"
  let t := if neg then s.drop 1 else s
  let v : Nat :=
    match t.splitOn "." with
    | [ip] => (ip.toNat?.getD 0) * 1000000
    | [ip, fp] => (ip.toNat?.getD 0) * 1000000 + ((fp ++ "000000").take 6).toNat?.getD 0
    | _ => 0
  if neg then -(v : Int) else (v : Int)

namespace SDK

/-- The SDK `Plan` type (bigint fields embedded as `Int`). -/
structure Plan where
  id : Int
  merchant : String
  pricePerPeriod : Int
  periodDuration : Int
  name : String
  isActive : Bool
  totalSubscribers : Int
  deriving Repr, DecidableEq

/-- The SDK `Subscription` type. -/
structure Subscription where
  id : Int
  planId : Int
  subscriber : String
  startTime : Int
  lastChargeTime : Int
  totalCharged : Int
  isActive : Bool
  deriving Repr, DecidableEq

/-- Embeds `FlexSub.createPlan`. `_txHash` is the submission hash returned by
`writeContract`; the function never reads the receipt or event logs and
returns a fixed placeholder record with `id = 1` and
`totalSubscribers = 0`. -/
def createPlan (walletConnected : Bool) (walletAddress : String) (price : String)
    (period : Period) (name : String) (_txHash : String) : Except String Plan :=
  if walletConnected = false then Except.error "Wallet not connected"
  else
    Except.ok
      { id := 1, merchant := walletAddress, pricePerPeriod := parseUnits6 price
        periodDuration := (periodSeconds period : Int), name := name
        isActive := true, totalSubscribers := 0 }

/-- Embeds `FlexSub.subscribe`. `plan` is the on-chain `getPlan` read; the optional
LI.FI cross-chain branch calls only the external bridge and changes no local
state, so it is omitted. The Yellow channel is opened with
`initialDeposit = plan.pricePerPeriod * 12`. The returned record is a fixed
placeholder (`id = 1`, `totalCharged = 0`, `isActive = true`); `now / 1000`
embeds `BigInt(Date.now() / 1000)` as integer division. -/
def subscribe (walletConnected : Bool) (walletAddress : String) (st : YellowState)
    (planId : Int) (plan : Plan) (now : Nat) (response : Except String String)
    (_txHash : String) : Except String (YellowState × Subscription) :=
  if walletConnected = false then Except.error "Wallet not connected"
  else
    match openChannel st plan.merchant (plan.pricePerPeriod * 12) none now response with
    | Except.error e => Except.error e
    | Except.ok (st', _channelId) =>
      Except.ok (st',
        { id := 1, planId := planId, subscriber := walletAddress
          startTime := ((now / 1000 : Nat) : Int), lastChargeTime := ((now / 1000 : Nat) : Int)
          totalCharged := 0, isActive := true })

/-- Embeds `FlexSub.charge`. The channel id is derived as
`"channel_" ++ subscriptionId`; the Yellow off-chain path is attempted first
and the on-chain `charge` transaction is submitted only when it returns
`false`. `txHash` is the submission hash; `confirmed` records whether an
on-chain confirmation of that transaction has been observed by the time the
call returns — the code never reads it and reports `success := true`
immediately in both branches. -/
def charge (walletConnected : Bool) (st : YellowState) (subscriptionId : Nat)
    (amountUnits : Int) (txHash : String) (confirmed : Bool) :
    Except String (YellowState × TransactionResult) :=
  if walletConnected = false then Except.error "Wallet not connected"
  else
    let channelId := "channel_" ++ toString subscriptionId
    match chargeSubscription st channelId subscriptionId amountUnits, confirmed with
    | (st', true), _ => Except.ok (st', { hash := "0x", success := true })
    | (st', false), _ => Except.ok (st', { hash := txHash, success := true })

/-- Embeds `FlexSub.cancelSubscription`: submits the transaction and reports
`success := true` immediately. -/
def cancelSubscription (walletConnected : Bool) (txHash : String) :
    Except String TransactionResult :=
  if walletConnected = false then Except.error "Wallet not connected"
  else Except.ok { hash := txHash, success := true }

/-- The confirmation-gating property claimed of the on-chain fallback path: a
result reported for the fallback (its hash is the submitted transaction hash,
not the off-chain marker "0x") is successful only when on-chain confirmation
has been observed. -/
def onchainReportConfirmationGated : Prop :=
  ∀ (st : YellowState) (subId : Nat) (amt : Int) (txHash : String) (confirmed : Bool)
    (st' : YellowState) (res : TransactionResult),
    charge true st subId amt txHash confirmed = Except.ok (st', res) →
    res.hash ≠ "0x" → res.success = true → confirmed = true

end SDK

/-! ## FlexSubManager contract (full source embedded in src/README.md;
interface in src/contracts/src/interfaces/IFlexSub.sol, tests in the Foundry
test file)

Solidity 0.8 checked arithmetic is embedded by `uadd` / `usub` over `Nat`
with the `2 ^ 256` bound; `Except.error` models `revert`, which rolls back
all state. Mappings return the zero-initialized struct for absent keys. -/

def U256LIMIT : Nat := 2 ^ 256

def uadd (a b : Nat) : Except String Nat :=
  if a + b < U256LIMIT then Except.ok (a + b) else Except.error "panic: arithmetic overflow"

def usub (a b : Nat) : Except String Nat :=
  if b ≤ a then Except.ok (a - b) else Except.error "panic: arithmetic underflow"

def addressZero : String := "0x0000000000000000000000000000000000000000"

namespace Contract

structure Plan where
  merchant : String
  pricePerPeriod : Nat
  periodDuration : Nat
  name : String
  isActive : Bool
  totalSubscribers : Nat
  deriving Repr, DecidableEq

structure Subscription where
  planId : Nat
  subscriber : String
  startTime : Nat
  lastChargeTime : Nat
  totalCharged : Nat
  isActive : Bool
  deriving Repr, DecidableEq

def zeroPlan : Plan :=
  { merchant := addressZero, pricePerPeriod := 0, periodDuration := 0
    name := "", isActive := false, totalSubscribers := 0 }

def zeroSubscription : Subscription :=
  { planId := 0, subscriber := addressZero, startTime := 0
    lastChargeTime := 0, totalCharged := 0, isActive := false }

structure FlexSubManager where
  usdc : String
  nextPlanId : Nat
  nextSubscriptionId : Nat
  plans : List (Nat × Plan)
  subscriptions : List (Nat × Subscription)
  merchantPlans : List (String × List Nat)
  subscriberSubscriptions : List (String × List Nat)
  deriving Repr, DecidableEq

/-- The constructor: counters start at 1. -/
def init (usdcAddr : String) : FlexSubManager :=
  { usdc := usdcAddr, nextPlanId := 1, nextSubscriptionId := 1
    plans := [], subscriptions := [], merchantPlans := [], subscriberSubscriptions := [] }

/-- Reads `plans[planId]` (zero struct when absent). -/
def getPlan (m : FlexSubManager) (planId : Nat) : Plan :=
  (alGet m.plans planId).getD zeroPlan

/-- Reads `subscriptions[subscriptionId]` (zero struct when absent). -/
def getSubscription (m : FlexSubManager) (subId : Nat) : Subscription :=
  (alGet m.subscriptions subId).getD zeroSubscription

/-- Performs `array.push(v)` on an index mapping. -/
def pushIndex (l : List (String × List Nat)) (k : String) (v : Nat) :
    List (String × List Nat) :=
  alSet l k ((alGet l k).getD [] ++ [v])

/-- Embeds `FlexSubManager.createPlan`. -/
def createPlan (m : FlexSubManager) (sender : String) (pricePerPeriod : Nat)
    (periodDuration : Nat) (name : String) : Except String (FlexSubManager × Nat) :=
  if pricePerPeriod = 0 then Except.error "Price must be > 0"
  else if periodDuration = 0 then Except.error "Duration must be > 0"
  else
    let planId := m.nextPlanId
    match uadd m.nextPlanId 1 with
    | Except.error e => Except.error e
    | Except.ok next =>
      let plan : Plan :=
        { merchant := sender, pricePerPeriod := pricePerPeriod
          periodDuration := periodDuration, name := name
          isActive := true, totalSubscribers := 0 }
      Except.ok ({ m with
          nextPlanId := next,
          plans := alSet m.plans planId plan,
          merchantPlans := pushIndex m.merchantPlans sender planId }, planId)

/-- Embeds `FlexSubManager.subscribe` (`now` is `block.timestamp`). The `isActive`
require runs before the existence require, so a missing plan reverts with
"Plan not active". -/
def subscribe (m : FlexSubManager) (sender : String) (now : Nat) (planId : Nat) :
    Except String (FlexSubManager × Nat) :=
  let plan := getPlan m planId
  if plan.isActive = false then Except.error "Plan not active"
  else if plan.merchant = addressZero then Except.error "Plan does not exist"
  else
    let subId := m.nextSubscriptionId
    match uadd m.nextSubscriptionId 1, uadd plan.totalSubscribers 1 with
    | Except.error e, _ => Except.error e
    | _, Except.error e => Except.error e
    | Except.ok next, Except.ok subs =>
      let sub : Subscription :=
        { planId := planId, subscriber := sender, startTime := now
          lastChargeTime := now, totalCharged := 0, isActive := true }
      Except.ok ({ m with
          nextSubscriptionId := next,
          subscriptions := alSet m.subscriptions subId sub,
          subscriberSubscriptions := pushIndex m.subscriberSubscriptions sender subId,
          plans := alSet m.plans planId { plan with totalSubscribers := subs } }, subId)

/-- Embeds `FlexSubManager.cancelSubscription`. -/
def cancelSubscription (m : FlexSubManager) (sender : String) (subId : Nat) :
    Except String FlexSubManager :=
  let sub := getSubscription m subId
  if sub.subscriber ≠ sender then Except.error "Not subscription owner"
  else if sub.isActive = false then Except.error "Already cancelled"
  else
    let plan := getPlan m sub.planId
    match usub plan.totalSubscribers 1 with
    | Except.error e => Except.error e
    | Except.ok subs =>
      Except.ok { m with
          subscriptions := alSet m.subscriptions subId { sub with isActive := false },
          plans := alSet m.plans sub.planId { plan with totalSubscribers := subs } }

/-- Embeds `FlexSubManager.charge` (`now` is `block.timestamp`). -/
def charge (m : FlexSubManager) (sender : String) (now : Nat) (subId : Nat)
    (amount : Nat) : Except String FlexSubManager :=
  let sub := getSubscription m subId
  let plan := getPlan m sub.planId
  if sub.isActive = false then Except.error "Subscription not active"
  else if plan.merchant ≠ sender then Except.error "Not plan merchant"
  else if plan.pricePerPeriod < amount then Except.error "Exceeds plan price"
  else
    match uadd sub.totalCharged amount with
    | Except.error e => Except.error e
    | Except.ok tc =>
      Except.ok { m with
          subscriptions := alSet m.subscriptions subId
            { sub with lastChargeTime := now, totalCharged := tc } }

end Contract

/-! ## Spec-modelled Channel Accounting Engine -/

inductive AcctError where
  | StaleNonce
  | InsufficientBalance
  | InvalidSignature
  deriving Repr, DecidableEq

/-- Modelled from the spec: a Channel record of the Channel Accounting Engine
(spec section 4.2) — the repository contains no implementation of this
engine; `YellowIntegration.sendPayment` keeps a participant allocation list
and performs none of the specified checks. -/
structure AcctChannel where
  payer : String
  payee : String
  asset : String
  payerBalance : Int
  payeeBalance : Int
  totalDeposited : Int
  nonce : Nat
  isOpen : Bool
  deriving Repr, DecidableEq

/-- Modelled from the spec: `applyPayment(channelId, amount, nonce, signature)`
of the Channel Accounting Engine (spec section 4.2). The repository has no
nonce-carrying payment application: `YellowIntegration.sendPayment` takes no
nonce argument, assigns `channel.nonce + 1` itself and never rejects. Checks
follow the spec order: StaleNonce when `nonce ≤ channel.nonce`,
InsufficientBalance when `amount >` payer balance, InvalidSignature when the
external verifier (input `sigOk`) fails; on success debit payer, credit
payee, set the nonce. An error leaves the channel unchanged. -/
def applyPayment (ch : AcctChannel) (amount : Int) (nonce : Nat) (sigOk : Bool) :
    AcctChannel × Option AcctError :=
  if nonce ≤ ch.nonce then (ch, some AcctError.StaleNonce)
  else if ch.payerBalance < amount then (ch, some AcctError.InsufficientBalance)
  else if sigOk = false then (ch, some AcctError.InvalidSignature)
  else ({ ch with
      payerBalance := ch.payerBalance - amount,
      payeeBalance := ch.payeeBalance + amount,
      nonce := nonce }, none)

/-! ## Spec-modelled Settlement Reconciler charge path -/

inductive IntentStatus where
  | pending
  | appliedOffchain
  | appliedOnchain
  | failed
  deriving Repr, DecidableEq

/-- Modelled from the spec: the Settlement Reconciler consumption of one
ChargeIntent (spec section 4.4) — attempt the off-chain path first; on
failure fall back on-chain, and mark the intent `appliedOnchain` only after
on-chain confirmation has been observed, otherwise it stays `pending`. The
repository implements no reconciler; `FlexSub.charge` is the nearest code. -/
def reconcileCharge (st : YellowState) (channelId : String) (subId : Nat)
    (amount : Int) (onchainConfirmed : Bool) : YellowState × IntentStatus :=
  match chargeSubscription st channelId subId amount with
  | (st', true) => (st', IntentStatus.appliedOffchain)
  | (st', false) =>
    (st', if onchainConfirmed then IntentStatus.appliedOnchain else IntentStatus.pending)

/-! ## Observation helpers and concrete fixtures -/

/-- The (payer, payee, asset) tuple of a channel, read from its participant
pair and first allocation. -/
def channelTuple (c : ChannelState) : Option (String × String × String) :=
  match c.appDefinition.participants, c.allocations with
  | [u, p], a :: _ => some (u, p, a.asset)
  | _, _ => none

/-- Number of open channels registered for a given (payer, payee, asset)
tuple. -/
def openChannelCountFor (st : YellowState) (t : String × String × String) : Nat :=
  (st.channels.filter (fun kv => kv.2.isOpen && (channelTuple kv.2 == some t))).length

/-- A connected client with no channels. -/
def exampleYellow0 : YellowState :=
  { connected := true, userAddress := some "0xUser", channels := [] }

/-- The channel produced by `openChannel` for partner `0xMerchant` with
deposit 100. -/
def exampleChannel : ChannelState :=
  { id := "ch1"
    appDefinition :=
      { protocol := "flexsub-subscription-v1", participants := ["0xUser", "0xMerchant"]
        weights := [50, 50], quorum := 100, challenge := 0, nonce := 5 }
    allocations :=
      [ { participant := "0xUser", asset := "usdc", amount := 100 }
      , { participant := "0xMerchant", asset := "usdc", amount := 0 } ]
    nonce := 0
    isOpen := true }

/-- A connected client holding `exampleChannel` under id `ch1`. -/
def exampleYellow1 : YellowState :=
  { connected := true, userAddress := some "0xUser", channels := [("ch1", exampleChannel)] }

/-- The channel state after paying 250 out of a balance of 100: the payer
allocation is negative. -/
def exampleOverdraftChannel : ChannelState :=
  { exampleChannel with
      nonce := 1,
      allocations :=
        [ { participant := "0xUser", asset := "usdc", amount := -150 }
        , { participant := "0xMerchant", asset := "usdc", amount := 250 } ] }

/-- The client state after the overdraft payment. -/
def exampleOverdraftState : YellowState :=
  { exampleYellow1 with channels := [("ch1", exampleOverdraftChannel)] }

/-- The channel state after a payment of 30 to the merchant. -/
def examplePaidChannel : ChannelState :=
  { exampleChannel with
      nonce := 1,
      allocations :=
        [ { participant := "0xUser", asset := "usdc", amount := 70 }
        , { participant := "0xMerchant", asset := "usdc", amount := 30 } ] }

/-- The client state after the payment of 30. -/
def examplePaidState : YellowState :=
  { exampleYellow1 with channels := [("ch1", examplePaidChannel)] }

/-- A spec-modelled accounting channel at nonce 3 (scenario B shape). -/
def exampleAcctChannel : AcctChannel :=
  { payer := "0xUser", payee := "0xMerchant", asset := "usdc"
    payerBalance := 9999000, payeeBalance := 1000, totalDeposited := 10000000
    nonce := 3, isOpen := true }

/-- The plan record used for concrete SDK `subscribe` runs. -/
def examplePlan : SDK.Plan :=
  { id := 1, merchant := "0xM", pricePerPeriod := 999000, periodDuration := 2592000
    name := "p", isActive := true, totalSubscribers := 0 }

/-- The `createPlan` result for price "9.99" (monthly): a fixed placeholder
record. -/
def examplePlanResult : SDK.Plan :=
  (SDK.createPlan true "0xM" "9.99" Period.monthly "Pro" "0xhash").toOption.getD
    { id := 0, merchant := "", pricePerPeriod := 0, periodDuration := 0
      name := "", isActive := false, totalSubscribers := 0 }

/-- The channel created by `subscribe` against `examplePlan` (deposit
999000 * 12 = 11988000). -/
def exampleSubscribeChannel : ChannelState :=
  { id := "chX"
    appDefinition :=
      { protocol := "flexsub-subscription-v1", participants := ["0xUser", "0xM"]
        weights := [50, 50], quorum := 100, challenge := 0, nonce := 5000 }
    allocations :=
      [ { participant := "0xUser", asset := "usdc", amount := 11988000 }
      , { participant := "0xM", asset := "usdc", amount := 0 } ]
    nonce := 0
    isOpen := true }

/-- The client state after the `subscribe` run. -/
def exampleSubscribeState : YellowState :=
  { connected := true, userAddress := some "0xUser"
    channels := [("chX", exampleSubscribeChannel)] }

/-- The placeholder subscription record returned by the `subscribe` run. -/
def exampleSubscribeSub : SDK.Subscription :=
  { id := 1, planId := 1, subscriber := "0xUser", startTime := 5, lastChargeTime := 5
    totalCharged := 0, isActive := true }

/-- A contract state reached by `createPlan` (price 10000000, period 2592000,
merchant `0xM`) followed by `subscribe` by `0xS`: plan id 1, subscription
id 1. -/
def exampleManager : Contract.FlexSubManager :=
  (((Contract.createPlan (Contract.init "0xUSDC") "0xM" 10000000 2592000 "Test").bind
      (fun p => Contract.subscribe p.1 "0xS" 1000 p.2)).map Prod.fst).toOption.getD
    (Contract.init "0xUSDC")

/-! ## General lemmas about the list helpers -/

theorem get?_modifyAt_self {α : Type} (l : List α) (i : Nat) (f : α → α) :
    (modifyAt l i f).get? i = (l.get? i).map f := by
  induction l generalizing i with
  | nil => simp [modifyAt]
  | cons a as ih =>
    cases i with
    | zero => simp [modifyAt]
    | succ n => simpa [modifyAt] using ih n

theorem get?_modifyAt_ne {α : Type} (l : List α) (i j : Nat) (f : α → α) (h : j ≠ i) :
    (modifyAt l i f).get? j = l.get? j := by
  induction l generalizing i j with
  | nil => simp [modifyAt]
  | cons a as ih =>
    cases i with
    | zero =>
      cases j with
      | zero => exact absurd rfl h
      | succ m => simp [modifyAt]
    | succ n =>
      cases j with
      | zero => simp [modifyAt]
      | succ m => simpa [modifyAt] using ih n m (fun e => h (by omega))

theorem allocSum_modifyAt (l : List Allocation) (i : Nat) (f : Allocation → Allocation) :
    allocSum (modifyAt l i f) =
      allocSum l + ((l.get? i).map (fun a => (f a).amount - a.amount)).getD 0 := by
  induction l generalizing i with
  | nil => simp [modifyAt, allocSum]
  | cons a as ih =>
    cases i with
    | zero =>
      simp only [modifyAt, allocSum, List.get?, Option.map_some', Option.getD_some]
      ring
    | succ n =>
      simp only [modifyAt, allocSum, List.get?, ih n]
      ring

theorem firstIdx_modifyAt {α : Type} (p : α → Bool) (l : List α) (i : Nat) (f : α → α)
    (hf : ∀ a, p (f a) = p a) :
    firstIdx p (modifyAt l i f) = firstIdx p l := by
  induction l generalizing i with
  | nil => simp [modifyAt]
  | cons a as ih =>
    cases i with
    | zero => simp [modifyAt, firstIdx, hf a]
    | succ n => simp [modifyAt, firstIdx, ih n]

theorem firstIdx_some_get? {α : Type} (p : α → Bool) (l : List α) (i : Nat)
    (h : firstIdx p l = some i) : ∃ a, l.get? i = some a ∧ p a = true := by
  induction l generalizing i with
  | nil => simp [firstIdx] at h
  | cons a as ih =>
    by_cases hp : p a
    · simp [firstIdx, hp] at h
      subst h
      exact ⟨a, by simp, hp⟩
    · simp [firstIdx, hp, Option.map_eq_some'] at h
      obtain ⟨m, hm, rfl⟩ := h
      obtain ⟨b, hb, hpb⟩ := ih m hm
      exact ⟨b, by simpa using hb, hpb⟩

theorem allocSum_updateAllocs (l : List Allocation) (u r : String) (amt : Int) :
    allocSum (updateAllocs l u r amt) = allocSum l := by
  unfold updateAllocs
  cases h1 : firstIdx (fun a => a.participant == u) l with
  | none => cases h2 : firstIdx (fun a => a.participant == r) l <;> rfl
  | some i =>
    cases h2 : firstIdx (fun a => a.participant == r) l with
    | none => rfl
    | some j =>
      obtain ⟨a, ha, _⟩ := firstIdx_some_get? _ _ _ h1
      rw [allocSum_modifyAt, allocSum_modifyAt]
      rcases eq_or_ne j i with rfl | hne
      · rw [get?_modifyAt_self, ha]
        simp only [Option.map_some', Option.getD_some, ha]
        ring
      · rw [get?_modifyAt_ne _ _ _ _ hne, ha]
        obtain ⟨b, hb, _⟩ := firstIdx_some_get? _ _ _ h2
        rw [hb]
        simp only [Option.map_some', Option.getD_some]
        ring

theorem amountAt_updateAllocs (l : List Allocation) (u r : String) (amt : Int)
    (i j : Nat) (hur : u ≠ r)
    (h1 : firstIdx (fun a => a.participant == u) l = some i)
    (h2 : firstIdx (fun a => a.participant == r) l = some j) :
    amountAt (updateAllocs l u r amt) u = amountAt l u - amt ∧
    amountAt (updateAllocs l u r amt) r = amountAt l r + amt := by
  obtain ⟨a, ha, hpa⟩ := firstIdx_some_get? _ _ _ h1
  obtain ⟨b, hb, hpb⟩ := firstIdx_some_get? _ _ _ h2
  have hau : a.participant = u := by simpa using hpa
  have hbr : b.participant = r := by simpa using hpb
  have hij : i ≠ j := by
    intro e
    subst e
    rw [ha] at hb
    cases hb
    exact hur (hau ▸ hbr ▸ rfl)
  have hup : updateAllocs l u r amt =
      modifyAt (modifyAt l i (fun a => { a with amount := a.amount - amt })) j
        (fun a => { a with amount := a.amount + amt }) := by
    unfold updateAllocs
    rw [h1, h2]
  have hA : firstIdx (fun a => a.participant == u)
      (modifyAt (modifyAt l i (fun a => { a with amount := a.amount - amt })) j
        (fun a => { a with amount := a.amount + amt })) = some i := by
    rw [firstIdx_modifyAt (fun a => a.participant == u) _ j
        (fun (x : Allocation) => { x with amount := x.amount + amt }) (fun x => rfl),
      firstIdx_modifyAt (fun a => a.participant == u) _ i
        (fun (x : Allocation) => { x with amount := x.amount - amt }) (fun x => rfl), h1]
  have hB : firstIdx (fun a => a.participant == r)
      (modifyAt (modifyAt l i (fun a => { a with amount := a.amount - amt })) j
        (fun a => { a with amount := a.amount + amt })) = some j := by
    rw [firstIdx_modifyAt (fun a => a.participant == r) _ j
        (fun (x : Allocation) => { x with amount := x.amount + amt }) (fun x => rfl),
      firstIdx_modifyAt (fun a => a.participant == r) _ i
        (fun (x : Allocation) => { x with amount := x.amount - amt }) (fun x => rfl), h2]
  have hC : (modifyAt (modifyAt l i (fun a => { a with amount := a.amount - amt })) j
      (fun a => { a with amount := a.amount + amt })).get? i =
        some { a with amount := a.amount - amt } := by
    rw [get?_modifyAt_ne _ _ _ _ hij, get?_modifyAt_self, ha]
    rfl
  have hD : (modifyAt (modifyAt l i (fun a => { a with amount := a.amount - amt })) j
      (fun a => { a with amount := a.amount + amt })).get? j =
        some { b with amount := b.amount + amt } := by
    rw [get?_modifyAt_self, get?_modifyAt_ne _ _ _ _ (fun e => hij e.symm), hb]
    rfl
  constructor
  · simp only [amountAt, hup, hA, hC, h1, ha]
  · simp only [amountAt, hup, hB, hD, h2, hb]

/-! ## Claim C1: channel balance conservation -/

/-- C1: channel balance conservation. A channel opened by `openChannel` starts
with allocation sum equal to the initial deposit, and every successful
`sendPayment` leaves the sum of the channel allocation amounts unchanged;
when the payer and payee are distinct participants of the channel, the payer
is debited and the payee credited by exactly the payment amount. Hence the
two balances always sum to the total deposited into the channel. -/
theorem sendPayment_conserves_channel_total :
    (∀ (st : YellowState) (partner : String) (dep : Int) (assetParam : Option String)
        (now : Nat) (cid : String) (st' : YellowState) (rid : String) (ch : ChannelState),
        openChannel st partner dep assetParam now (Except.ok cid) = Except.ok (st', rid) →
        alGet st'.channels cid = some ch →
        allocSum ch.allocations = dep) ∧
    (∀ (st : YellowState) (cid : String) (amt : Int) (rcp : String) (st' : YellowState)
        (nb : Int) (ch ch' : ChannelState),
        sendPayment st cid amt rcp = Except.ok (st', nb) →
        alGet st.channels cid = some ch →
        alGet st'.channels cid = some ch' →
        allocSum ch'.allocations = allocSum ch.allocations ∧
        (∀ (u : String) (i j : Nat),
          st.userAddress = some u → u ≠ rcp →
          firstIdx (fun a => a.participant == u) ch.allocations = some i →
          firstIdx (fun a => a.participant == rcp) ch.allocations = some j →
          amountAt ch'.allocations u = amountAt ch.allocations u - amt ∧
          amountAt ch'.allocations rcp = amountAt ch.allocations rcp + amt)) := by
  constructor
  · intro st partner dep assetParam now cid st' rid ch hopen hch
    rcases st with ⟨conn, ua, chans⟩
    cases conn with
    | false => simp [openChannel] at hopen
    | true =>
      cases ua with
      | none => simp [openChannel] at hopen
      | some user =>
        simp only [openChannel, Except.ok.injEq, Prod.mk.injEq] at hopen
        obtain ⟨hst, hrid⟩ := hopen
        subst hst
        have hch2 : alGet (alSet chans cid
            { id := cid
              appDefinition :=
                { protocol := "flexsub-subscription-v1", participants := [user, partner]
                  weights := [50, 50], quorum := 100, challenge := 0, nonce := now }
              allocations :=
                [ { participant := user, asset := assetParam.getD "usdc", amount := dep }
                , { participant := partner, asset := assetParam.getD "usdc", amount := 0 } ]
              nonce := 0, isOpen := true }) cid = some ch := hch
        rw [alGet_alSet_self] at hch2
        injection hch2 with he
        subst he
        simp [allocSum]
  · intro st cid amt rcp st' nb ch ch' hsend hch hch'
    rcases st with ⟨conn, ua, chans⟩
    cases conn with
    | false => simp [sendPayment] at hsend
    | true =>
      cases ua with
      | none => simp [sendPayment] at hsend
      | some user =>
        have hch2 : alGet chans cid = some ch := hch
        simp only [sendPayment, hch2] at hsend
        cases hop : ch.isOpen with
        | false =>
          rw [hop] at hsend
          simp at hsend
        | true =>
          rw [hop, if_neg (by simp : ¬(true = false))] at hsend
          simp only [Except.ok.injEq, Prod.mk.injEq] at hsend
          obtain ⟨hst, hnb⟩ := hsend
          subst hst
          have hch'2 : alGet (alSet chans cid
              { id := ch.id, appDefinition := ch.appDefinition
                allocations := updateAllocs ch.allocations user rcp amt
                nonce := ch.nonce + 1, isOpen := true }) cid =
              some ch' := hch'
          rw [alGet_alSet_self] at hch'2
          injection hch'2 with he
          subst he
          refine ⟨by simpa using allocSum_updateAllocs ch.allocations user rcp amt, ?_⟩
          intro u i j hu hne hfi hfj
          have huu : user = u := by simpa using hu
          subst huu
          have h := amountAt_updateAllocs ch.allocations user rcp amt i j hne hfi hfj
          simpa using h

/-- C1 witness: concrete instantiation on a channel with deposit 100 and a
payment of 30. -/
theorem sendPayment_conserves_channel_total_witness :
    allocSum examplePaidChannel.allocations = allocSum exampleChannel.allocations ∧
    amountAt examplePaidChannel.allocations "0xUser" =
      amountAt exampleChannel.allocations "0xUser" - 30 ∧
    amountAt examplePaidChannel.allocations "0xMerchant" =
      amountAt exampleChannel.allocations "0xMerchant" + 30 := by
  have h := sendPayment_conserves_channel_total.2 exampleYellow1 "ch1" 30 "0xMerchant"
    examplePaidState 70 exampleChannel examplePaidChannel rfl rfl rfl
  have h2 := h.2 "0xUser" 0 1 rfl (by decide) rfl rfl
  exact ⟨h.1, h2.1, h2.2⟩

/-! ## Claim C2: stale-nonce rejection (spec-modelled engine) -/

/-- C2: stale-nonce rejection is a no-op. On the spec-modelled Channel
Accounting Engine, applying a payment whose nonce is less than or equal to
the channel current nonce is rejected with `StaleNonce` and returns the
channel unchanged (both balances and the nonce are untouched), for every
amount and every signature verdict. The repository itself exposes no
nonce-carrying payment application: `sendPayment` takes no nonce input. -/
theorem applyPayment_stale_nonce_noop :
    ∀ (ch : AcctChannel) (amount : Int) (nonce : Nat) (sigOk : Bool),
      nonce ≤ ch.nonce →
      applyPayment ch amount nonce sigOk = (ch, some AcctError.StaleNonce) := by
  intro ch amount nonce sigOk h
  simp [applyPayment, h]

/-- C2 witness: a stale nonce (1 against channel nonce 3) is rejected without
any state change. -/
theorem applyPayment_stale_nonce_noop_witness :
    applyPayment exampleAcctChannel 500 1 true = (exampleAcctChannel, some AcctError.StaleNonce) :=
  applyPayment_stale_nonce_noop exampleAcctChannel 500 1 true (by decide)

/-! ## Claim C3: insufficient balance is not rejected by the code -/

/-- C3 counterexample: on a channel holding 100 for the payer, a payment of
250 (exceeding the balance) does not fail with any InsufficientBalance
error: `sendPayment` returns success and the payer allocation becomes -150,
a negative balance. -/
theorem sendPayment_overdraft_accepted_cex :
    sendPayment exampleYellow1 "ch1" 250 "0xMerchant" =
      Except.ok (exampleOverdraftState, -150) ∧
    amountAt exampleOverdraftChannel.allocations "0xUser" = -150 ∧
    amountAt exampleChannel.allocations "0xUser" < 250 := by
  refine ⟨rfl, rfl, by decide⟩

/-- C3 (amended): `sendPayment` performs no balance check at all. For every
connected state and open channel whose allocations contain the sender and a
distinct recipient, a payment of any amount succeeds, and the payer
allocation is debited by exactly that amount — below zero when the amount
exceeds the balance. -/
theorem sendPayment_no_balance_check :
    ∀ (st : YellowState) (cid : String) (amt : Int) (rcp : String) (ch : ChannelState)
      (u : String) (i j : Nat),
      st.connected = true → st.userAddress = some u →
      alGet st.channels cid = some ch → ch.isOpen = true →
      firstIdx (fun a => a.participant == u) ch.allocations = some i →
      firstIdx (fun a => a.participant == rcp) ch.allocations = some j →
      u ≠ rcp →
      ∃ (st' : YellowState) (nb : Int),
        sendPayment st cid amt rcp = Except.ok (st', nb) ∧
        ∀ ch', alGet st'.channels cid = some ch' →
          amountAt ch'.allocations u = amountAt ch.allocations u - amt := by
  intro st cid amt rcp ch u i j hconn hu hch hopen hfi hfj hne
  rcases st with ⟨conn, ua, chans⟩
  cases conn with
  | false => cases hconn
  | true =>
    cases ua with
    | none => cases hu
    | some user =>
      have huu : user = u := by simpa using hu
      subst huu
      have hch2 : alGet chans cid = some ch := hch
      refine ⟨⟨true, some user, alSet chans cid
          { id := ch.id, appDefinition := ch.appDefinition
            allocations := updateAllocs ch.allocations user rcp amt
            nonce := ch.nonce + 1, isOpen := true }⟩,
        amountAt (updateAllocs ch.allocations user rcp amt) user, ?_, ?_⟩
      · simp [sendPayment, hch2, hopen]
      · intro ch' hch'
        have hch'2 : alGet (alSet chans cid
            { id := ch.id, appDefinition := ch.appDefinition
              allocations := updateAllocs ch.allocations user rcp amt
              nonce := ch.nonce + 1, isOpen := true }) cid =
            some ch' := hch'
        rw [alGet_alSet_self] at hch'2
        injection hch'2 with he
        subst he
        have h := amountAt_updateAllocs ch.allocations user rcp amt i j hne hfi hfj
        simpa using h.1

/-- C3 (amended) witness: the overdraft input (amount 250 against balance
100) instantiates the theorem. -/
theorem sendPayment_no_balance_check_witness :
    ∃ (st' : YellowState) (nb : Int),
      sendPayment exampleYellow1 "ch1" 250 "0xMerchant" = Except.ok (st', nb) ∧
      ∀ ch', alGet st'.channels "ch1" = some ch' →
        amountAt ch'.allocations "0xUser" =
          amountAt exampleChannel.allocations "0xUser" - 250 :=
  sendPayment_no_balance_check exampleYellow1 "ch1" 250 "0xMerchant" exampleChannel
    "0xUser" 0 1 rfl rfl rfl rfl rfl rfl (by decide)

/-! ## Claim C7: no per-tuple uniqueness check on openChannel -/

/-- C7 counterexample: two consecutive `openChannel` calls for the same
(payer, payee, asset) tuple both succeed — the second is not rejected with
any AlreadyOpen error — leaving two open channels registered for the tuple
(`0xUser`, `0xMerchant`, `usdc`). -/
theorem openChannel_duplicate_tuple_cex :
    ((openChannel exampleYellow0 "0xMerchant" 100 none 5 (Except.ok "ch1")).bind
      (fun p => (openChannel p.1 "0xMerchant" 100 none 5 (Except.ok "ch2")).map
        (fun q => openChannelCountFor q.1 ("0xUser", "0xMerchant", "usdc")))) =
      Except.ok 2 := rfl

/-- C7 (amended): `openChannel` performs no per-tuple uniqueness check.
Whenever the client is connected and the ClearNode returns a channel id, the
call succeeds and registers an open channel under that id — regardless of any
existing open channel for the same (payer, payee, asset) tuple — so several
open channels for one tuple can coexist. -/
theorem openChannel_no_tuple_uniqueness :
    ∀ (st : YellowState) (partner : String) (dep : Int) (assetParam : Option String)
      (now : Nat) (cid : String) (u : String),
      st.connected = true → st.userAddress = some u →
      ∃ st', openChannel st partner dep assetParam now (Except.ok cid) = Except.ok (st', cid) ∧
        ∃ ch, alGet st'.channels cid = some ch ∧ ch.isOpen = true ∧
          ch.appDefinition.participants = [u, partner] := by
  intro st partner dep assetParam now cid u hconn hu
  rcases st with ⟨conn, ua, chans⟩
  cases conn with
  | false => cases hconn
  | true =>
    cases ua with
    | none => cases hu
    | some user =>
      have huu : user = u := by simpa using hu
      subst huu
      refine ⟨_, rfl, ?_⟩
      exact ⟨_, alGet_alSet_self _ _ _, rfl, rfl⟩

/-- C7 (amended) witness: opening a second channel for the already-served
tuple (`0xUser`, `0xMerchant`, `usdc`) succeeds. -/
theorem openChannel_no_tuple_uniqueness_witness :
    ∃ st', openChannel exampleYellow1 "0xMerchant" 100 none 5 (Except.ok "ch2") =
        Except.ok (st', "ch2") ∧
      ∃ ch, alGet st'.channels "ch2" = some ch ∧ ch.isOpen = true ∧
        ch.appDefinition.participants = ["0xUser", "0xMerchant"] :=
  openChannel_no_tuple_uniqueness exampleYellow1 "0xMerchant" 100 none 5 "ch2" "0xUser" rfl rfl

/-! ## Claim C4: off-chain first, but on-chain success is reported
speculatively -/

/-- C4 counterexample: the confirmation-gating half of the claim is false.
With no open channel, `FlexSub.charge` submits the on-chain transaction and
reports `success := true` while no on-chain confirmation has been observed
(`confirmed = false`), whereas the spec-modelled reconciler leaves the intent
`pending` at the same input. -/
theorem charge_reports_unconfirmed_onchain_cex :
    ¬ SDK.onchainReportConfirmationGated ∧
    (reconcileCharge exampleYellow0 "channel_7" 7 100 false).2 = IntentStatus.pending := by
  constructor
  · intro hg
    have h := hg exampleYellow0 7 100 "0xabc" false exampleYellow0
      { hash := "0xabc", success := true } rfl (by decide) rfl
    exact Bool.noConfusion h
  · rfl

/-- C4 (amended): the off-chain channel payment is attempted first and the
on-chain charge is submitted only when it fails, but the result is reported
as successful immediately upon submission, for every value of the
confirmation observation — never waiting for on-chain confirmation. -/
theorem charge_offchain_first_immediate_report :
    ∀ (st : YellowState) (subId : Nat) (amt : Int) (txHash : String) (confirmed : Bool)
      (st2 : YellowState) (b : Bool),
      chargeSubscription st ("channel_" ++ toString subId) subId amt = (st2, b) →
      SDK.charge true st subId amt txHash confirmed =
        Except.ok (st2, { hash := if b then "0x" else txHash, success := true }) := by
  intro st subId amt txHash confirmed st2 b hcs
  cases b with
  | true => simp [SDK.charge, hcs]
  | false => simp [SDK.charge, hcs]

/-- C4 (amended) witness: with no channel, the off-chain attempt fails and
the submitted on-chain transaction is reported successful with
`confirmed = false`. -/
theorem charge_offchain_first_immediate_report_witness :
    SDK.charge true exampleYellow0 7 100 "0xdef" false =
      Except.ok (exampleYellow0, { hash := "0xdef", success := true }) :=
  charge_offchain_first_immediate_report exampleYellow0 7 100 "0xdef" false
    exampleYellow0 false rfl

/-! ## Claim C5: charge-amount cap of the contract -/

/-- C5: charge-amount cap. For every contract state with an active
subscription whose plan merchant is the caller: a charge above the plan
`pricePerPeriod` reverts with "Exceeds plan price" (a revert rolls back all
state, so `totalCharged` is unchanged), and a charge at or below the cap
(whose checked addition does not overflow) succeeds and adds exactly the
amount to `totalCharged`. -/
theorem contract_charge_cap :
    ∀ (m : Contract.FlexSubManager) (sender : String) (now subId amount : Nat),
      (Contract.getSubscription m subId).isActive = true →
      (Contract.getPlan m (Contract.getSubscription m subId).planId).merchant = sender →
      ((Contract.getPlan m (Contract.getSubscription m subId).planId).pricePerPeriod < amount →
        Contract.charge m sender now subId amount = Except.error "Exceeds plan price") ∧
      (amount ≤ (Contract.getPlan m (Contract.getSubscription m subId).planId).pricePerPeriod →
        (Contract.getSubscription m subId).totalCharged + amount < U256LIMIT →
        ∃ m', Contract.charge m sender now subId amount = Except.ok m' ∧
          (Contract.getSubscription m' subId).totalCharged =
            (Contract.getSubscription m subId).totalCharged + amount) := by
  intro m sender now subId amount hact hmer
  constructor
  · intro hgt
    simp [Contract.charge, hact, hmer, hgt]
  · intro hle hlim
    refine ⟨{ m with
        subscriptions := alSet m.subscriptions subId
          { Contract.getSubscription m subId with
              lastChargeTime := now,
              totalCharged := (Contract.getSubscription m subId).totalCharged + amount } },
      ?_, ?_⟩
    · simp [Contract.charge, hact, hmer, not_lt.mpr hle, uadd, hlim]
    · simp [Contract.getSubscription, alGet_alSet_self]

/-- C5 witness: on the concrete state (plan price 10000000, subscription 1
active), a charge of 20000000 reverts with "Exceeds plan price" and a charge
of 5000000 adds exactly 5000000 to `totalCharged`. -/
theorem contract_charge_cap_witness :
    Contract.charge exampleManager "0xM" 2000 1 20000000 =
      Except.error "Exceeds plan price" ∧
    ∃ m', Contract.charge exampleManager "0xM" 2000 1 5000000 = Except.ok m' ∧
      (Contract.getSubscription m' 1).totalCharged =
        (Contract.getSubscription exampleManager 1).totalCharged + 5000000 := by
  constructor
  · exact (contract_charge_cap exampleManager "0xM" 2000 1 20000000
      (by decide) (by decide)).1 (by decide)
  · exact (contract_charge_cap exampleManager "0xM" 2000 1 5000000
      (by decide) (by decide)).2 (by decide) (by decide)

/-! ## Claim C6: cancellation is terminal and error-signalling -/

/-- Helper: cancelling a subscription that is already inactive reverts with
"Already cancelled". -/
theorem cancel_already_cancelled (m : Contract.FlexSubManager) (sender : String)
    (subId : Nat) (h1 : (Contract.getSubscription m subId).subscriber = sender)
    (h2 : (Contract.getSubscription m subId).isActive = false) :
    Contract.cancelSubscription m sender subId = Except.error "Already cancelled" := by
  simp [Contract.cancelSubscription, h1, h2]

/-- C6: cancelling an active subscription by its owner decrements the plan
subscriber counter by exactly one and deactivates the subscription, and a
second cancel of the same subscription fails with "Already cancelled" (a
revert, so the counter is never decremented twice). -/
theorem cancelSubscription_terminal :
    ∀ (m : Contract.FlexSubManager) (sender : String) (subId : Nat),
      (Contract.getSubscription m subId).subscriber = sender →
      (Contract.getSubscription m subId).isActive = true →
      0 < (Contract.getPlan m (Contract.getSubscription m subId).planId).totalSubscribers →
      ∃ m', Contract.cancelSubscription m sender subId = Except.ok m' ∧
        (Contract.getPlan m' (Contract.getSubscription m subId).planId).totalSubscribers + 1 =
          (Contract.getPlan m (Contract.getSubscription m subId).planId).totalSubscribers ∧
        (Contract.getSubscription m' subId).isActive = false ∧
        Contract.cancelSubscription m' sender subId = Except.error "Already cancelled" := by
  intro m sender subId hown hact hpos
  have hpos' : 1 ≤ (Contract.getPlan m (Contract.getSubscription m subId).planId).totalSubscribers :=
    hpos
  refine ⟨{ m with
      subscriptions := alSet m.subscriptions subId
        { Contract.getSubscription m subId with isActive := false },
      plans := alSet m.plans (Contract.getSubscription m subId).planId
        { Contract.getPlan m (Contract.getSubscription m subId).planId with
            totalSubscribers :=
              (Contract.getPlan m (Contract.getSubscription m subId).planId).totalSubscribers
                - 1 } }, ?_, ?_, ?_, ?_⟩
  · simp [Contract.cancelSubscription, hown, hact, usub, hpos']
  · simp [Contract.getPlan, alGet_alSet_self] at hpos' ⊢
    omega
  · simp [Contract.getSubscription, alGet_alSet_self]
  · have hs : Contract.getSubscription
        { m with
          subscriptions := alSet m.subscriptions subId
            { Contract.getSubscription m subId with isActive := false },
          plans := alSet m.plans (Contract.getSubscription m subId).planId
            { Contract.getPlan m (Contract.getSubscription m subId).planId with
                totalSubscribers :=
                  (Contract.getPlan m
                      (Contract.getSubscription m subId).planId).totalSubscribers - 1 } }
        subId = { Contract.getSubscription m subId with isActive := false } := by
      simp [Contract.getSubscription, alGet_alSet_self]
    refine cancel_already_cancelled _ sender subId ?_ ?_
    · rw [hs]
      exact hown
    · rw [hs]

/-- C6 witness: cancelling subscription 1 on the concrete state drops the
plan subscriber count from 1 to 0, and a second cancel fails with
"Already cancelled". -/
theorem cancelSubscription_terminal_witness :
    ∃ m', Contract.cancelSubscription exampleManager "0xS" 1 = Except.ok m' ∧
      (Contract.getPlan m' 1).totalSubscribers + 1 =
        (Contract.getPlan exampleManager 1).totalSubscribers ∧
      (Contract.getSubscription m' 1).isActive = false ∧
      Contract.cancelSubscription m' "0xS" 1 = Except.error "Already cancelled" :=
  cancelSubscription_terminal exampleManager "0xS" 1 (by decide) (by decide) (by decide)

/-! ## Claim C8: subscribe opens a 12-period pre-funded channel -/

/-- C8: every successful SDK `subscribe` opens a Yellow channel whose initial
deposit is exactly 12 times the plan `pricePerPeriod`, entirely allocated to
the subscriber, with the merchant allocation 0 and local channel nonce 0. -/
theorem subscribe_opens_prefunded_channel :
    ∀ (wa : String) (st : YellowState) (planId : Int) (plan : SDK.Plan) (now : Nat)
      (cid txHash : String) (st' : YellowState) (sub : SDK.Subscription) (u : String),
      st.userAddress = some u →
      SDK.subscribe true wa st planId plan now (Except.ok cid) txHash = Except.ok (st', sub) →
      alGet st'.channels cid = some
        { id := cid
          appDefinition :=
            { protocol := "flexsub-subscription-v1", participants := [u, plan.merchant]
              weights := [50, 50], quorum := 100, challenge := 0, nonce := now }
          allocations :=
            [ { participant := u, asset := "usdc", amount := plan.pricePerPeriod * 12 }
            , { participant := plan.merchant, asset := "usdc", amount := 0 } ]
          nonce := 0, isOpen := true } := by
  intro wa st planId plan now cid txHash st' sub u hu hsub
  rcases st with ⟨conn, ua, chans⟩
  cases conn with
  | false => simp [SDK.subscribe, openChannel] at hsub
  | true =>
    cases ua with
    | none => simp [SDK.subscribe, openChannel] at hsub
    | some user =>
      have huu : user = u := by simpa using hu
      subst huu
      simp only [SDK.subscribe, openChannel, Except.ok.injEq, Prod.mk.injEq,
        if_neg (show ¬(true = false) by simp)] at hsub
      obtain ⟨hst, hsubr⟩ := hsub
      subst hst
      exact alGet_alSet_self _ _ _

/-- C8 witness: a concrete `subscribe` against a plan with price 999000 opens
a channel holding 11988000 for the subscriber and 0 for the merchant. -/
theorem subscribe_opens_prefunded_channel_witness :
    alGet exampleSubscribeState.channels "chX" = some exampleSubscribeChannel :=
  subscribe_opens_prefunded_channel "0xUser" exampleYellow0 1 examplePlan 5000 "chX" "0xh"
    exampleSubscribeState exampleSubscribeSub "0xUser" rfl rfl

/-! ## Claim C9: placeholder records from createPlan and subscribe -/

/-- C9: every successful SDK `createPlan` returns a placeholder plan with
`id = 1` and `totalSubscribers = 0`, and every successful SDK `subscribe`
returns a placeholder subscription with `id = 1`, `totalCharged = 0` and
`isActive = true`, irrespective of every input and of any on-chain state. -/
theorem sdk_placeholder_returns :
    (∀ (wa price : String) (period : Period) (name txHash : String) (plan : SDK.Plan),
        SDK.createPlan true wa price period name txHash = Except.ok plan →
        plan.id = 1 ∧ plan.totalSubscribers = 0) ∧
    (∀ (wa : String) (st : YellowState) (planId : Int) (plan : SDK.Plan) (now : Nat)
        (response : Except String String) (txHash : String) (st' : YellowState)
        (sub : SDK.Subscription),
        SDK.subscribe true wa st planId plan now response txHash = Except.ok (st', sub) →
        sub.id = 1 ∧ sub.totalCharged = 0 ∧ sub.isActive = true) := by
  constructor
  · intro wa price period name txHash plan h
    simp only [SDK.createPlan, if_neg (show ¬(true = false) by simp),
      Except.ok.injEq] at h
    subst h
    exact ⟨rfl, rfl⟩
  · intro wa st planId plan now response txHash st' sub h
    simp only [SDK.subscribe, if_neg (show ¬(true = false) by simp)] at h
    cases hoc : openChannel st plan.merchant (plan.pricePerPeriod * 12) none now response with
    | error e =>
      rw [hoc] at h
      simp at h
    | ok p =>
      rw [hoc] at h
      simp only [Except.ok.injEq, Prod.mk.injEq] at h
      obtain ⟨hst, hsubr⟩ := h
      subst hsubr
      exact ⟨rfl, rfl, rfl⟩

/-- C9 witness: the concrete `createPlan` and `subscribe` runs return the
fixed placeholder ids and counters. -/
theorem sdk_placeholder_returns_witness :
    examplePlanResult.id = 1 ∧ examplePlanResult.totalSubscribers = 0 ∧
    exampleSubscribeSub.id = 1 ∧ exampleSubscribeSub.totalCharged = 0 ∧
    exampleSubscribeSub.isActive = true := by
  have h1 := sdk_placeholder_returns.1 "0xM" "9.99" Period.monthly "Pro" "0xhash"
    examplePlanResult rfl
  have h2 := sdk_placeholder_returns.2 "0xUser" exampleYellow0 1 examplePlan 5000
    (Except.ok "chX") "0xh" exampleSubscribeState exampleSubscribeSub rfl
  exact ⟨h1.1, h1.2, h2.1, h2.2.1, h2.2.2⟩

/-! ## Claim C10: missing channel id always takes the on-chain fallback -/

/-- C10: `chargeSubscription` on a channel id absent from the channel map
returns `false` without changing any state; hence `FlexSub.charge`, which
derives the id `"channel_" ++ subscriptionId`, takes the on-chain fallback
whenever that key is absent; and `openChannel` stores a channel only under
the ClearNode-provided response id, leaving every other key untouched. -/
theorem charge_fallback_when_channel_missing :
    (∀ (st : YellowState) (cid : String) (subId : Nat) (amt : Int),
        alGet st.channels cid = none →
        chargeSubscription st cid subId amt = (st, false)) ∧
    (∀ (st : YellowState) (subId : Nat) (amt : Int) (txHash : String) (confirmed : Bool),
        alGet st.channels ("channel_" ++ toString subId) = none →
        SDK.charge true st subId amt txHash confirmed =
          Except.ok (st, { hash := txHash, success := true })) ∧
    (∀ (st : YellowState) (partner : String) (dep : Int) (assetParam : Option String)
        (now : Nat) (cid : String) (st' : YellowState) (rid k : String),
        openChannel st partner dep assetParam now (Except.ok cid) = Except.ok (st', rid) →
        k ≠ cid →
        alGet st'.channels k = alGet st.channels k) := by
  refine ⟨?_, ?_, ?_⟩
  · intro st cid subId amt h
    simp [chargeSubscription, h]
  · intro st subId amt txHash confirmed h
    have h1 : chargeSubscription st ("channel_" ++ toString subId) subId amt = (st, false) := by
      simp [chargeSubscription, h]
    simp [SDK.charge, h1]
  · intro st partner dep assetParam now cid st' rid k hopen hk
    rcases st with ⟨conn, ua, chans⟩
    cases conn with
    | false => simp [openChannel] at hopen
    | true =>
      cases ua with
      | none => simp [openChannel] at hopen
      | some user =>
        simp only [openChannel, Except.ok.injEq, Prod.mk.injEq] at hopen
        obtain ⟨hst, _⟩ := hopen
        subst hst
        exact alGet_alSet_ne _ _ _ _ hk

/-- C10 witness: with no channels, `chargeSubscription` under key
`channel_7` returns false, `charge` takes the on-chain fallback, and an
`openChannel` storing under `ch1` leaves key `channel_7` absent. -/
theorem charge_fallback_when_channel_missing_witness :
    chargeSubscription exampleYellow0 "channel_7" 7 100 = (exampleYellow0, false) ∧
    SDK.charge true exampleYellow0 7 100 "0xabc" false =
      Except.ok (exampleYellow0, { hash := "0xabc", success := true }) ∧
    alGet exampleYellow1.channels "channel_7" = alGet exampleYellow0.channels "channel_7" :=
  ⟨charge_fallback_when_channel_missing.1 exampleYellow0 "channel_7" 7 100 rfl,
    charge_fallback_when_channel_missing.2.1 exampleYellow0 7 100 "0xabc" false rfl,
    charge_fallback_when_channel_missing.2.2 exampleYellow0 "0xMerchant" 100 none 5 "ch1"
      exampleYellow1 "ch1" "channel_7" rfl (by decide)⟩

end FlexSubVerif
